import Mathlib

/-!
A shallow embedding of the client-side request pipeline in
`helping_hands/static/js/helping_hands.js` (class GlobalHandler).

Conventions of the embedding:
* A JavaScript string-or-undefined value is `Option String` (`none` is
  `undefined`); JS template–literal interpolation of `undefined` produces
  the text "undefined", modelled by `jsShow`.
* JS truthiness of a string is "present and non-empty"; of a number it is
  "non-zero"; of an object it is "present".  `a || b` on such values is
  modelled by the corresponding `jsOr...` helpers.
* JS numbers that the handlers only pass around are modelled as `ℚ`
  (no claim settled here depends on float rounding); numeric
  stringification (`toString`, `toLocaleString`) is abstracted as Lean
  `toString`.
* DOM side effects (toasts, class changes, fragment rendering, custom
  events) are made explicit as fields of outcome records; a thrown JS
  exception escaping a callback is an `Except.error` / `thrown` marker.
* jQuery form serialization is modelled as the list of (name, value)
  pairs of the named fields, in document order; URL-encoding is not
  modelled (no claim mentions it).
-/

/-- JS interpolation of a string-or-undefined into a template literal. -/
def jsShow : Option String → String
  | some s => s
  | none => "undefined"

/-- JS truthiness of a string-or-undefined value. -/
def jsTruthyS : Option String → Bool
  | some s => !(s == "")
  | none => false

/-- JS truthiness of a number-or-undefined value. -/
def jsTruthyQ : Option ℚ → Bool
  | some q => !(q == 0)
  | none => false

/-- JS `a || b` where both operands are string-or-undefined values. -/
def jsOrOptStr : Option String → Option String → Option String
  | some s, b => if s == "" then b else some s
  | none, b => b

/-- JS `a || d` where `a` is a string-or-undefined value and `d` a string. -/
def jsOrStr : Option String → String → String
  | some s, d => if s == "" then d else s
  | none, d => d

/-- JS `a || d` where `a` is a number-or-undefined value and `d` a number. -/
def jsOrQ : Option ℚ → ℚ → ℚ
  | some q, d => if q == 0 then d else q
  | none, d => d

/-- Abstraction of JS numeric stringification (`toLocaleString` and
template interpolation of a number). -/
def toLocaleString (q : ℚ) : String :=
  toString q

/-- JS interpolation of a number-or-undefined into a template literal. -/
def jsShowQ : Option ℚ → String
  | some q => toString q
  | none => "undefined"

/-- A form control as the handlers see it: its relevant attributes, its
current value, whether it carries the `is-invalid` class, and whether an
`.invalid-feedback` sibling slot exists (with its current text). -/
structure FormField where
  nameAttr : Option String
  idAttr : Option String
  typeAttr : Option String
  value : String
  required : Bool
  isInvalid : Bool
  hasFeedback : Bool
  feedbackText : String
deriving DecidableEq

/-- Severity argument of `showToastNotification`. -/
inductive Severity
  | success
  | error
  | warning
  | info
deriving DecidableEq

/-- A toast notification: severity and the message argument, which the
source sometimes passes as a possibly-undefined value. -/
structure Toast where
  severity : Severity
  message : Option String
deriving DecidableEq

/-- `fieldName` of `validateForm`: `field.attr(name) || field.attr(id)`,
interpolated into the violation template (undefined prints "undefined"). -/
def fieldLabel (f : FormField) : String :=
  jsShow (jsOrOptStr f.nameAttr f.idAttr)

/-- The email test `/^[^\s@]+@[^\s@]+\.[^\s@]+$/` of `validateForm`:
a non-empty run of non-space non-@ characters, one `@`, and a non-empty
non-space non-@ tail containing a dot at an interior position. -/
def emailLocalChar (c : Char) : Bool :=
  !c.isWhitespace && !(c == '@')

/-- Decides the email regular expression of `validateForm` on a string. -/
def emailRegexTest (s : String) : Bool :=
  let cs := s.toList
  let l := cs.takeWhile (fun c => !(c == '@'))
  let r := cs.drop (l.length + 1)
  decide (l.length + 1 ≤ cs.length) &&
  !l.isEmpty && l.all emailLocalChar &&
  !r.isEmpty && r.all emailLocalChar &&
  ((r.drop 1).dropLast.contains '.')

/-- The phone test `/^[\d\s\-\+\(\)]+$/` of `validateForm`. -/
def phoneChar (c : Char) : Bool :=
  c.isDigit || c.isWhitespace || c == '-' || c == '+' || c == '(' || c == ')'

/-- Decides the phone regular expression of `validateForm` on a string. -/
def phoneRegexTest (s : String) : Bool :=
  !s.toList.isEmpty && s.toList.all phoneChar

/-- Model of the JS string `trim()` used on field values: strip leading
and trailing whitespace. -/
def jsTrim (s : String) : String :=
  ⟨((s.data.dropWhile (fun c => c.isWhitespace)).reverse.dropWhile
      (fun c => c.isWhitespace)).reverse⟩

/-- One iteration of the `requiredFields.each` loop of `validateForm`:
the violation messages this field contributes, in push order, and the
field state after the class mutations of that iteration.  The sequential
addClass/removeClass calls of the source are collapsed into the final
class value of the iteration, which each later call overwrites. -/
def validateField (f : FormField) : List String × FormField :=
  let value := jsTrim f.value
  let label := fieldLabel f
  let requiredErrs := if value == "" then [label ++ " is required"] else []
  let emailFail := f.typeAttr == some "email" && !(value == "") && !emailRegexTest value
  let emailErrs := if emailFail then [label ++ " must be a valid email address"] else []
  let phoneFail := f.typeAttr == some "tel" && !(value == "") && !phoneRegexTest value
  let phoneErrs := if phoneFail then [label ++ " must be a valid phone number"] else []
  let f1 : FormField := { f with isInvalid := value == "" }
  let f2 : FormField := if emailFail then { f1 with isInvalid := true } else f1
  let f3 : FormField := if phoneFail then { f2 with isInvalid := true } else f2
  (requiredErrs ++ emailErrs ++ phoneErrs, f3)

/-- The full traversal of `validateForm`: visit every field in document
order, run `validateField` on the ones carrying `required`, and leave
the others untouched (the source only selects `[required]` controls). -/
def validateFields : List FormField → List String × List FormField
  | [] => ([], [])
  | f :: fs =>
    let head := if f.required then validateField f else ([], f)
    let tail := validateFields fs
    (head.1 ++ tail.1, head.2 :: tail.2)

/-- The result object of `validateForm`. -/
structure ValidationResult where
  isValid : Bool
  errors : List String
deriving DecidableEq

/-- `validateForm`: the returned result (`isValid: errors.length === 0`)
and the field states after the traversal. -/
def validateForm (fields : List FormField) : ValidationResult × List FormField :=
  ({ isValid := (validateFields fields).1.length == 0,
     errors := (validateFields fields).1 },
   (validateFields fields).2)

/-- `form.serialize()`: the (name, value) pairs of the named controls. -/
def serializeForm (fields : List FormField) : List (String × String) :=
  fields.filterMap (fun f => f.nameAttr.map (fun n => (n, f.value)))

/-- The JSON response envelope shared by all endpoints, with the
operation-specific `data` shape as a type parameter.  `none` stands for
an absent (or null) optional member. -/
structure Envelope (α : Type) where
  success : Bool
  message : Option String
  data : Option α
  errors : Option (List (String × String))
deriving DecidableEq

/-- One key of the `response.errors` object applied to one form control,
as in `handleFormErrors`: controls whose `name` attribute equals the key
gain `is-invalid`, and their feedback slot (when present) receives the
error text. -/
def applyFieldError (key err : String) (f : FormField) : FormField :=
  if f.nameAttr == some key then
    { f with isInvalid := true,
             feedbackText := if f.hasFeedback then err else f.feedbackText }
  else f

/-- All keys of `response.errors` applied to one form control.  The
source iterates keys in the outer loop and matching controls in the
inner one; since each control is updated independently of the others,
transposing the loops is behavior-preserving. -/
def applyFieldErrors (errs : List (String × String)) (f : FormField) : FormField :=
  errs.foldl (fun g p => applyFieldError p.1 p.2 g) f

/-- `handleFormErrors`: the error toast (`response.message` with the
default fallback) and the field states after the per-key loop, which
only runs when `response.errors` is present (an empty object still
enters the branch and changes nothing). -/
def handleFormErrors (fields : List FormField) (message : Option String)
    (errors : Option (List (String × String))) : Toast × List FormField :=
  (⟨Severity.error, some (jsOrStr message "Form submission failed")⟩,
   match errors with
   | some errs => fields.map (applyFieldErrors errs)
   | none => fields)

/-- The progress bar values written by `updateDonationProgress` when no
exception is raised: bar percentage and the campaign stat texts. -/
structure ProgressUpdate where
  barPercentage : ℚ
  currentText : String
  goalText : String
deriving DecidableEq

/-- The `data.campaign_progress` object of a donation response. -/
structure ProgressData where
  current : Option ℚ
  goal : Option ℚ
  percentage : Option ℚ
deriving DecidableEq

/-- The DOM state `updateDonationProgress` consults: whether the
`#donation-progress` element exists. -/
structure DonationDom where
  progressBarExists : Bool
deriving DecidableEq

/-- `updateDonationProgress`: when the progress bar exists, the bar is
set from `progress.percentage || 0`, and the campaign stat texts are
built by evaluating `progress.current.toLocaleString()` and
`progress.goal.toLocaleString()` unconditionally — a member access that
throws a TypeError when the member is absent. -/
def updateDonationProgress (dom : DonationDom) (progress : ProgressData) :
    Except String (Option ProgressUpdate) :=
  if dom.progressBarExists then
    let percentage := jsOrQ progress.percentage 0
    match progress.current with
    | none => Except.error "TypeError: progress.current is undefined"
    | some cur =>
      match progress.goal with
      | none => Except.error "TypeError: progress.goal is undefined"
      | some g =>
        Except.ok (some { barPercentage := percentage,
                          currentText := "$" ++ toLocaleString cur,
                          goalText := "$" ++ toLocaleString g })
  else Except.ok none

/-- The `data` object of a registration response. -/
structure RegData where
  registration_id : Option String
  event_name : Option String
  event_date : Option String
  confirmation_email : Option String
deriving DecidableEq

/-- `showRegistrationConfirmation`: the alert fragment, with absent
members interpolated as the text "undefined". -/
def showRegistrationConfirmation (data : RegData) : String :=
  "<div class=\"alert alert-success mt-3\" role=\"alert\">"
  ++ "<h5>Registration Confirmed!</h5>"
  ++ "<p><strong>Registration ID:</strong> " ++ jsShow data.registration_id ++ "</p>"
  ++ "<p><strong>Event:</strong> " ++ jsShow data.event_name ++ "</p>"
  ++ "<p><strong>Date:</strong> " ++ jsShow data.event_date ++ "</p>"
  ++ "<p>A confirmation email has been sent to " ++ jsShow data.confirmation_email ++ "</p>"
  ++ "</div>"

/-- The `data` object of a volunteer response. -/
structure VolData where
  volunteer_id : Option String
  name : Option String
  areas_of_interest : Option (List String)
  next_steps : Option String
deriving DecidableEq

/-- `showVolunteerWelcome`: the alert fragment; only `next_steps` is
guarded by a truthiness test, the other members interpolate as
"undefined" when absent. -/
def showVolunteerWelcome (data : VolData) : String :=
  "<div class=\"alert alert-info mt-3\" role=\"alert\">"
  ++ "<h5>Welcome, " ++ jsShow data.name ++ "!</h5>"
  ++ "<p><strong>Volunteer ID:</strong> " ++ jsShow data.volunteer_id ++ "</p>"
  ++ (if jsTruthyS data.next_steps then "<p>" ++ jsShow data.next_steps ++ "</p>" else "")
  ++ "</div>"

/-- The `data` object of a donation response. -/
structure DonationData where
  transaction_id : Option String
  amount : Option ℚ
  currency : Option String
  receipt_url : Option String
  campaign_progress : Option ProgressData
deriving DecidableEq

/-- `showDonationReceipt`: the receipt alert fragment. -/
def showDonationReceipt (data : DonationData) : String :=
  "<div class=\"alert alert-success mt-3\" role=\"alert\">"
  ++ "<h5>Thank you for your donation!</h5>"
  ++ "<p><strong>Transaction ID:</strong> " ++ jsShow data.transaction_id ++ "</p>"
  ++ "<p><strong>Amount:</strong> $" ++ jsShowQ data.amount ++ " " ++ jsShow data.currency ++ "</p>"
  ++ "<p><a href=\"" ++ jsShow data.receipt_url
  ++ "\" target=\"_blank\" class=\"btn btn-sm btn-outline-success\">Download Receipt</a></p>"
  ++ "</div>"

/-- Everything a success-or-failure AJAX callback of a form handler does
to the page: the toast, whether `form.reset()` ran, the field states
afterwards, the confirmation fragments rendered (in order), a JS
exception escaping the callback if any, the custom event triggered, and
the donation progress bar update if one happened. -/
structure CbOutcome where
  toast : Toast
  formReset : Bool
  fieldsAfter : List FormField
  fragments : List String
  thrown : Option String
  eventTriggered : Option String
  progressUpdate : Option ProgressUpdate
deriving DecidableEq

/-- The `success=false` branch shared by all four form handlers: they
call `handleFormErrors(form, response)` and nothing else — no reset, no
confirmation fragment, no custom event. -/
def errorBranchOutcome (fields : List FormField) (message : Option String)
    (errors : Option (List (String × String))) : CbOutcome :=
  { toast := (handleFormErrors fields message errors).1
    formReset := false
    fieldsAfter := (handleFormErrors fields message errors).2
    fragments := []
    thrown := none
    eventTriggered := none
    progressUpdate := none }

/-- The AJAX success callback of `handleFormSubmission` (contact form):
on `success=true` it toasts `response.message || "Form submitted
successfully"`, resets the form, removes `is-invalid` from every
control, and triggers `formSubmitted`. -/
def contactCallback (fields : List FormField) (resp : Envelope Unit) : CbOutcome :=
  if resp.success then
    { toast := ⟨Severity.success, some (jsOrStr resp.message "Form submitted successfully")⟩
      formReset := true
      fieldsAfter := fields.map (fun f => { f with isInvalid := false })
      fragments := []
      thrown := none
      eventTriggered := some "formSubmitted"
      progressUpdate := none }
  else errorBranchOutcome fields resp.message resp.errors

/-- The AJAX success callback of `handleEventRegistration`: on
`success=true` it toasts `response.message` as passed (no fallback),
resets the form without touching `is-invalid` classes, renders the
registration confirmation when `response.data && response.data.registration_id`,
and triggers `eventRegistered`. -/
def registrationCallback (fields : List FormField) (resp : Envelope RegData) : CbOutcome :=
  if resp.success then
    { toast := ⟨Severity.success, resp.message⟩
      formReset := true
      fieldsAfter := fields
      fragments :=
        match resp.data with
        | some d => if jsTruthyS d.registration_id then [showRegistrationConfirmation d] else []
        | none => []
      thrown := none
      eventTriggered := some "eventRegistered"
      progressUpdate := none }
  else errorBranchOutcome fields resp.message resp.errors

/-- The AJAX success callback of `handleVolunteerSignUp`: on
`success=true` it toasts `response.message` as passed, resets the form
without touching `is-invalid` classes, renders the volunteer welcome
when `response.data` is present, and triggers `volunteerSignedUp`. -/
def volunteerCallback (fields : List FormField) (resp : Envelope VolData) : CbOutcome :=
  if resp.success then
    { toast := ⟨Severity.success, resp.message⟩
      formReset := true
      fieldsAfter := fields
      fragments :=
        match resp.data with
        | some d => [showVolunteerWelcome d]
        | none => []
      thrown := none
      eventTriggered := some "volunteerSignedUp"
      progressUpdate := none }
  else errorBranchOutcome fields resp.message resp.errors

/-- The AJAX success callback of `handleDonationProcessing`: on
`success=true` it toasts `response.message` as passed, resets the form,
updates the progress bar when `response.data && response.data.campaign_progress`
(a step that can throw, aborting the rest of the callback), then renders
the receipt when `response.data && response.data.receipt_url` and
triggers `donationProcessed`. -/
def donationCallback (dom : DonationDom) (fields : List FormField)
    (resp : Envelope DonationData) : CbOutcome :=
  if resp.success then
    let progressStep : Except String (Option ProgressUpdate) :=
      match resp.data with
      | some d =>
        match d.campaign_progress with
        | some p => updateDonationProgress dom p
        | none => Except.ok none
      | none => Except.ok none
    match progressStep with
    | Except.error e =>
      { toast := ⟨Severity.success, resp.message⟩
        formReset := true
        fieldsAfter := fields
        fragments := []
        thrown := some e
        eventTriggered := none
        progressUpdate := none }
    | Except.ok pu =>
      { toast := ⟨Severity.success, resp.message⟩
        formReset := true
        fieldsAfter := fields
        fragments :=
          match resp.data with
          | some d => if jsTruthyS d.receipt_url then [showDonationReceipt d] else []
          | none => []
        thrown := none
        eventTriggered := some "donationProcessed"
        progressUpdate := pu }
  else errorBranchOutcome fields resp.message resp.errors

/-- The synchronous part of a form handler before any network traffic. -/
inductive PrePhase
  | abort (toast : Toast) (fieldsAfter : List FormField)
  | proceed (payload : List (String × String)) (fieldsAfter : List FormField)
deriving DecidableEq

/-- The pre-network steps shared by contact, registration and volunteer
handlers: run `validateForm`; on failure toast the violations joined
with `<br>` and stop; otherwise serialize and submit. -/
def genericPre (fields : List FormField) : PrePhase :=
  let v := (validateForm fields).1
  let fields2 := (validateForm fields).2
  if v.isValid then PrePhase.proceed (serializeForm fields2) fields2
  else PrePhase.abort ⟨Severity.error, some (String.intercalate "<br>" v.errors)⟩ fields2

/-- `form.find(input[name=amount]).val()`: the value of the first
control named `amount`, undefined when there is none. -/
def donationAmountValue (fields : List FormField) : Option String :=
  (fields.find? (fun f => f.nameAttr == some "amount")).map FormField.value

/-- JS falsiness of the `.val()` result: undefined or the empty string. -/
def jsStrFalsy : Option String → Bool
  | none => true
  | some s => s == ""

/-- Digit run to number, for the `parseFloat` model. -/
def digitsToNat (cs : List Char) : Nat :=
  cs.foldl (fun a c => a * 10 + (c.toNat - 48)) 0

/-- Model of JS `parseFloat` restricted to the decimal literals the
handlers meet: skip leading whitespace, optional sign, digits, optional
fraction; `none` is NaN (no parseable prefix).  Exponent forms are not
modelled; no claim exercises them. -/
def parseFloatQ (s : String) : Option ℚ :=
  let cs := s.toList.dropWhile (fun c => c.isWhitespace)
  let neg : Bool := match cs with | '-' :: _ => true | _ => false
  let cs2 := match cs with
    | '-' :: rest => rest
    | '+' :: rest => rest
    | _ => cs
  let intPart := cs2.takeWhile Char.isDigit
  let rest := cs2.drop intPart.length
  let fracPart := match rest with
    | '.' :: r => r.takeWhile Char.isDigit
    | _ => []
  if intPart.isEmpty && fracPart.isEmpty then none
  else
    let mag : Int := (digitsToNat intPart * 10 ^ fracPart.length + digitsToNat fracPart : Nat)
    some (mkRat (if neg then -mag else mag) (10 ^ fracPart.length))

/-- `parseFloat` applied to a possibly-undefined value; `parseFloat` of
`undefined` is NaN. -/
def parseFloatOpt : Option String → Option ℚ
  | none => none
  | some s => parseFloatQ s

/-- The comparison `parseFloat(amount) <= 0`, false on NaN. -/
def jsLeZero : Option ℚ → Bool
  | none => false
  | some q => decide (q ≤ 0)

/-- The donation amount guard `!amount || parseFloat(amount) <= 0` of
`handleDonationProcessing`, which runs before `validateForm`. -/
def donationGuard (fields : List FormField) : Bool :=
  jsStrFalsy (donationAmountValue fields)
    || jsLeZero (parseFloatOpt (donationAmountValue fields))

/-- The pre-network steps of `handleDonationProcessing`: the amount
guard first (its own toast, form left untouched), then the shared
validation pipeline. -/
def donationPre (fields : List FormField) : PrePhase :=
  if donationGuard fields then
    PrePhase.abort ⟨Severity.error, some "Please enter a valid donation amount"⟩ fields
  else genericPre fields

/-- A whole handler run, given the envelope the server would answer
with: either a local abort with no request issued, or the issued payload
together with the outcome of the success-callback on that envelope. -/
inductive RunResult
  | localAbort (toast : Toast) (fieldsAfter : List FormField)
  | sent (payload : List (String × String)) (outcome : CbOutcome)
deriving DecidableEq

/-- `handleFormSubmission` (contact) end to end. -/
def runContact (fields : List FormField) (resp : Envelope Unit) : RunResult :=
  match genericPre fields with
  | PrePhase.abort t fs => RunResult.localAbort t fs
  | PrePhase.proceed p fs => RunResult.sent p (contactCallback fs resp)

/-- `handleEventRegistration` end to end. -/
def runRegistration (fields : List FormField) (resp : Envelope RegData) : RunResult :=
  match genericPre fields with
  | PrePhase.abort t fs => RunResult.localAbort t fs
  | PrePhase.proceed p fs => RunResult.sent p (registrationCallback fs resp)

/-- `handleVolunteerSignUp` end to end. -/
def runVolunteer (fields : List FormField) (resp : Envelope VolData) : RunResult :=
  match genericPre fields with
  | PrePhase.abort t fs => RunResult.localAbort t fs
  | PrePhase.proceed p fs => RunResult.sent p (volunteerCallback fs resp)

/-- `handleDonationProcessing` end to end. -/
def runDonation (dom : DonationDom) (fields : List FormField)
    (resp : Envelope DonationData) : RunResult :=
  match donationPre fields with
  | PrePhase.abort t fs => RunResult.localAbort t fs
  | PrePhase.proceed p fs => RunResult.sent p (donationCallback dom fs resp)

/-- The status-code switch of `handleAjaxError`. -/
def statusMessage (status : Nat) : String :=
  if status = 400 then "Bad request. Please check your input."
  else if status = 401 then "Unauthorized. Please log in."
  else if status = 403 then "Forbidden. You do not have permission."
  else if status = 404 then "Resource not found."
  else if status = 500 then "Server error. Please try again later."
  else "An unexpected error occurred."

/-- What `JSON.parse(xhr.responseText)` yields in `handleAjaxError`:
either a parse failure, or a parsed object together with its `message`
member (`none` when the member is absent). -/
inductive JsonBody
  | notJson
  | parsed (message : Option String)
deriving DecidableEq

/-- Whether the `if (response.message)` override of `handleAjaxError`
fires: the body parsed and its `message` member is truthy. -/
def jsonMessageTruthy : JsonBody → Bool
  | JsonBody.parsed (some m) => !(m == "")
  | _ => false

/-- `handleAjaxError`: choose the status-derived message, then prefer a
truthy `message` member of a JSON error body, and toast it. -/
def handleAjaxError (status : Nat) (body : JsonBody) : Toast :=
  let base := statusMessage status
  let chosen :=
    match body with
    | JsonBody.parsed (some m) => if m == "" then base else m
    | _ => base
  ⟨Severity.error, some chosen⟩

/-- The `data` object of an event-details response. -/
structure EventData where
  title : Option String
  description : Option String
  date : Option String
  time : Option String
  location : Option String
  organizer : Option String
  image_url : Option String
  capacity : Option ℚ
  registered : Option ℚ
deriving DecidableEq

/-- The modal body template of `displayEventModal`: image, location,
organizer and availability are guarded by truthiness tests, the other
interpolations print "undefined" when the member is absent. -/
def buildEventModalBody (d : EventData) : String :=
  (if jsTruthyS d.image_url then
     "<img src=\"" ++ jsShow d.image_url ++ "\" class=\"img-fluid mb-3\" alt=\""
       ++ jsShow d.title ++ "\">"
   else "")
  ++ "<p>" ++ jsShow d.description ++ "</p>"
  ++ "<div class=\"event-details\">"
  ++ "<p><strong>Date:</strong> " ++ jsShow d.date
  ++ (if jsTruthyS d.time then " at " ++ jsShow d.time else "") ++ "</p>"
  ++ (if jsTruthyS d.location then
        "<p><strong>Location:</strong> " ++ jsShow d.location ++ "</p>" else "")
  ++ (if jsTruthyS d.organizer then
        "<p><strong>Organizer:</strong> " ++ jsShow d.organizer ++ "</p>" else "")
  ++ (if jsTruthyQ d.capacity then
        "<p><strong>Availability:</strong> " ++ toString (jsOrQ d.registered 0)
          ++ " / " ++ jsShowQ d.capacity ++ " spots filled</p>"
      else "")
  ++ "</div>"

/-- What the AJAX success callback of `loadEventDetails` does. -/
inductive DetailsOutcome
  | modal (title : Option String) (body : String)
  | failToast (toast : Toast)
deriving DecidableEq

/-- The success callback of `loadEventDetails`: present the modal when
`response.success && response.data`, otherwise toast
`response.message || "Failed to load event details"`. -/
def detailsCallback (resp : Envelope EventData) : DetailsOutcome :=
  match resp.success, resp.data with
  | true, some d => DetailsOutcome.modal d.title (buildEventModalBody d)
  | _, _ =>
    DetailsOutcome.failToast
      ⟨Severity.error, some (jsOrStr resp.message "Failed to load event details")⟩

/-- The value `$(e.currentTarget).data(event-id)` can take: undefined
when the attribute is missing, a number (jQuery converts numeric
strings), or a string. -/
inductive JsVal
  | undef
  | num (n : Int)
  | str (s : String)
deriving DecidableEq

/-- JS falsiness of such a value. -/
def jsFalsy : JsVal → Bool
  | JsVal.undef => true
  | JsVal.num n => n == 0
  | JsVal.str s => s == ""

/-- JS template interpolation of such a value. -/
def jsValText : JsVal → String
  | JsVal.undef => "undefined"
  | JsVal.num n => toString n
  | JsVal.str s => s

/-- A whole `loadEventDetails` run, given the envelope the server would
answer with. -/
inductive DetailsResult
  | localAbort (toast : Toast)
  | sent (url : String) (outcome : DetailsOutcome)
deriving DecidableEq

/-- `loadEventDetails` end to end: a falsy event id toasts "Event ID not
found" and issues no request; otherwise a GET to the templated URL whose
response is handled by `detailsCallback`. -/
def runLoadEventDetails (eventId : JsVal) (resp : Envelope EventData) : DetailsResult :=
  if jsFalsy eventId then
    DetailsResult.localAbort ⟨Severity.error, some "Event ID not found"⟩
  else
    DetailsResult.sent ("/api/events/" ++ jsValText eventId ++ "/") (detailsCallback resp)

/-- A valid required email field, with a feedback slot. -/
def exEmailField : FormField :=
  { nameAttr := some "email", idAttr := none, typeAttr := some "email",
    value := "a@b.co", required := true, isInvalid := false,
    hasFeedback := true, feedbackText := "" }

/-- A non-required field still carrying `is-invalid` from an earlier
server-reported error. -/
def exFlaggedOptField : FormField :=
  { nameAttr := some "newsletter", idAttr := none, typeAttr := none,
    value := "", required := false, isInvalid := true,
    hasFeedback := false, feedbackText := "" }

/-- An empty required field. -/
def exEmptyReqField : FormField :=
  { nameAttr := some "donor", idAttr := none, typeAttr := none,
    value := "", required := true, isInvalid := false,
    hasFeedback := false, feedbackText := "" }

/-- An amount control holding the string 0. -/
def exAmountZeroField : FormField :=
  { nameAttr := some "amount", idAttr := none, typeAttr := none,
    value := "0", required := false, isInvalid := false,
    hasFeedback := false, feedbackText := "" }

/-- An amount control holding a positive numeric string. -/
def exAmountOkField : FormField :=
  { nameAttr := some "amount", idAttr := none, typeAttr := none,
    value := "25", required := false, isInvalid := false,
    hasFeedback := false, feedbackText := "" }

/-- An amount control holding a non-empty non-numeric string. -/
def exAmountNanField : FormField :=
  { nameAttr := some "amount", idAttr := none, typeAttr := none,
    value := "abc", required := true, isInvalid := false,
    hasFeedback := false, feedbackText := "" }

/-- The registration data of the source comment example. -/
def exRegData : RegData :=
  { registration_id := some "REG-12345", event_name := some "Community Fundraiser",
    event_date := some "2024-01-15", confirmation_email := some "user@example.com" }

/-- A successful registration envelope with a message. -/
def exRegSuccess : Envelope RegData :=
  { success := true, message := some "Successfully registered for event",
    data := some exRegData, errors := none }

/-- A successful registration envelope without a message. -/
def exRegSuccessNoMsg : Envelope RegData :=
  { success := true, message := none, data := none, errors := none }

/-- A successful contact envelope. -/
def exSuccessUnit : Envelope Unit :=
  { success := true, message := some "OK", data := none, errors := none }

/-- The failing envelope of the spec example: no message, one field error. -/
def exFailEnvelope : Envelope Unit :=
  { success := false, message := none, data := none, errors := some [("email", "Invalid")] }

/-- A bare successful donation envelope. -/
def exDonationResp : Envelope DonationData :=
  { success := true, message := none, data := none, errors := none }

/-- The donation DOM state with a progress bar present. -/
def c3Dom : DonationDom := ⟨true⟩

/-- A campaign progress object missing `current` and `goal`. -/
def c3Progress : ProgressData := { current := none, goal := none, percentage := some 75 }

/-- A donation data object whose progress lacks `current` and `goal` but
whose receipt link is present. -/
def c3Data : DonationData :=
  { transaction_id := some "TXN-98765", amount := some 50, currency := some "USD",
    receipt_url := some "/receipts/TXN-98765", campaign_progress := some c3Progress }

/-- A successful donation envelope carrying `c3Data`. -/
def c3Resp : Envelope DonationData :=
  { success := true, message := some "Thank you for your donation!",
    data := some c3Data, errors := none }

/-- The donation handler input of claim C9: a non-numeric amount. -/
def c9Fields : List FormField := [exAmountNanField]

/-- A DOM without a progress bar. -/
def c9Dom : DonationDom := ⟨false⟩

/-- The event data of the source comment example (without image). -/
def exEventData : EventData :=
  { title := some "Community Fundraiser", description := some "Join us",
    date := some "2024-01-15", time := some "14:00", location := some "Community Center",
    organizer := some "Helping Hands Foundation", image_url := none,
    capacity := some 100, registered := some 45 }

/-- A successful event-details envelope. -/
def exDetailsSuccess : Envelope EventData :=
  { success := true, message := none, data := some exEventData, errors := none }

/-- A failing event-details envelope. -/
def exDetailsFailure : Envelope EventData :=
  { success := false, message := some "Event not found", data := none, errors := none }

lemma validateField_snd_of_nil (f : FormField) (h : (validateField f).1 = []) :
    (validateField f).2.isInvalid = false := by
  cases hreq : (jsTrim f.value == "") with
  | true =>
    exfalso
    simp [validateField, hreq] at h
  | false =>
    simp [validateField, hreq] at h ⊢
    have hnE : ¬(f.typeAttr = some "email" ∧ emailRegexTest (jsTrim f.value) = false) := by
      rintro ⟨ht, he⟩
      rw [h.1 ht] at he
      cases he
    have hnT : ¬(f.typeAttr = some "tel" ∧ phoneRegexTest (jsTrim f.value) = false) := by
      rintro ⟨ht, hp⟩
      rw [h.2 ht] at hp
      cases hp
    rw [if_neg hnT, if_neg hnE]

lemma validateField_fst_of_empty (f : FormField) (h : jsTrim f.value = "") :
    (validateField f).1 = [fieldLabel f ++ " is required"] := by
  simp [validateField, h]

lemma validateFields_valid_clear (fields : List FormField)
    (h : (validateFields fields).1 = []) :
    ∀ f ∈ (validateFields fields).2, f.required = true → f.isInvalid = false := by
  induction fields with
  | nil => intro f hf; simp [validateFields] at hf
  | cons g gs ih =>
    intro f hf hreq
    cases hgr : g.required with
    | true =>
      simp only [validateFields, hgr, if_true] at h hf
      rcases List.append_eq_nil.mp h with ⟨h1, h2⟩
      rcases List.mem_cons.mp hf with rfl | hf2
      · exact validateField_snd_of_nil g h1
      · exact ih h2 f hf2 hreq
    | false =>
      simp only [validateFields, hgr, Bool.false_eq_true, if_false, List.nil_append] at h hf
      rcases List.mem_cons.mp hf with rfl | hf2
      · rw [hgr] at hreq; cases hreq
      · exact ih h f hf2 hreq

lemma validateForm_valid_nil {fields : List FormField}
    (h : (validateForm fields).1.isValid = true) : (validateFields fields).1 = [] := by
  simp only [validateForm, beq_iff_eq] at h
  exact List.length_eq_zero.mp h

lemma validateFields_mem_required (fields : List FormField) (f : FormField)
    (hf : f ∈ fields) (hreq : f.required = true) (hv : jsTrim f.value = "") :
    (fieldLabel f ++ " is required") ∈ (validateFields fields).1 := by
  induction fields with
  | nil => cases hf
  | cons g gs ih =>
    simp only [validateFields]
    rcases List.mem_cons.mp hf with rfl | hf2
    · simp [hreq, validateField_fst_of_empty f hv]
    · exact List.mem_append_right _ (ih hf2)

lemma genericPre_invalid {fields : List FormField}
    (h : (validateForm fields).1.isValid = false) :
    genericPre fields
      = PrePhase.abort
          ⟨Severity.error, some (String.intercalate "<br>" (validateForm fields).1.errors)⟩
          (validateForm fields).2 := by
  simp [genericPre, h]

lemma applyFieldError_nameAttr (k e : String) (f : FormField) :
    (applyFieldError k e f).nameAttr = f.nameAttr := by
  unfold applyFieldError; split <;> rfl

lemma applyFieldError_hasFeedback (k e : String) (f : FormField) :
    (applyFieldError k e f).hasFeedback = f.hasFeedback := by
  unfold applyFieldError; split <;> rfl

lemma applyFieldError_ne (k e : String) (f : FormField) (h : f.nameAttr ≠ some k) :
    applyFieldError k e f = f := by
  simp [applyFieldError, h]

lemma applyFieldError_eq_invalid (k e : String) (f : FormField) (h : f.nameAttr = some k) :
    (applyFieldError k e f).isInvalid = true := by
  simp [applyFieldError, h]

lemma applyFieldError_invalid_mono (k e : String) (f : FormField) (h : f.isInvalid = true) :
    (applyFieldError k e f).isInvalid = true := by
  unfold applyFieldError; split
  · rfl
  · exact h

lemma applyFieldError_feedback_eq (k e : String) (f : FormField)
    (hname : f.nameAttr = some k) (hfb : f.hasFeedback = true) :
    (applyFieldError k e f).feedbackText = e := by
  simp [applyFieldError, hname, hfb]

lemma applyFieldErrors_nil (f : FormField) : applyFieldErrors [] f = f := rfl

lemma applyFieldErrors_cons (p : String × String) (rest : List (String × String))
    (f : FormField) :
    applyFieldErrors (p :: rest) f = applyFieldErrors rest (applyFieldError p.1 p.2 f) := rfl

lemma applyFieldErrors_invalid_mono :
    ∀ (errs : List (String × String)) (f : FormField),
      f.isInvalid = true → (applyFieldErrors errs f).isInvalid = true := by
  intro errs
  induction errs with
  | nil => intro f h; exact h
  | cons p rest ih =>
    intro f h
    rw [applyFieldErrors_cons]
    exact ih _ (applyFieldError_invalid_mono p.1 p.2 f h)

lemma applyFieldErrors_mem_invalid :
    ∀ (errs : List (String × String)) (f : FormField) (k e : String),
      (k, e) ∈ errs → f.nameAttr = some k → (applyFieldErrors errs f).isInvalid = true := by
  intro errs
  induction errs with
  | nil => intro f k e hmem; cases hmem
  | cons p rest ih =>
    intro f k e hmem hname
    rw [applyFieldErrors_cons]
    rcases List.mem_cons.mp hmem with heq | hmem2
    · have hp1 : p.1 = k := by rw [← heq]
      have hinv : (applyFieldError p.1 p.2 f).isInvalid = true := by
        rw [hp1]; exact applyFieldError_eq_invalid k p.2 f hname
      exact applyFieldErrors_invalid_mono rest _ hinv
    · refine ih _ k e hmem2 ?_
      rw [applyFieldError_nameAttr]; exact hname

lemma applyFieldErrors_not_mem :
    ∀ (errs : List (String × String)) (f : FormField),
      (∀ p ∈ errs, f.nameAttr ≠ some p.1) → applyFieldErrors errs f = f := by
  intro errs
  induction errs with
  | nil => intro f _; rfl
  | cons p rest ih =>
    intro f h
    rw [applyFieldErrors_cons, applyFieldError_ne p.1 p.2 f (h p (List.mem_cons_self p rest))]
    exact ih f (fun q hq => h q (List.mem_cons_of_mem p hq))

lemma applyFieldErrors_feedback :
    ∀ (errs : List (String × String)) (f : FormField) (k e : String),
      (errs.map Prod.fst).Nodup → (k, e) ∈ errs → f.nameAttr = some k →
      f.hasFeedback = true → (applyFieldErrors errs f).feedbackText = e := by
  intro errs
  induction errs with
  | nil => intro f k e _ hmem; cases hmem
  | cons p rest ih =>
    intro f k e hnd hmem hname hfb
    rw [applyFieldErrors_cons]
    have hhead : p.1 ∉ rest.map Prod.fst := (List.nodup_cons.mp (by simpa using hnd)).1
    have hnd2 : (rest.map Prod.fst).Nodup := (List.nodup_cons.mp (by simpa using hnd)).2
    rcases List.mem_cons.mp hmem with heq | hmem2
    · have hp1 : p.1 = k := by rw [← heq]
      have hp2 : p.2 = e := by rw [← heq]
      have hfe : (applyFieldError p.1 p.2 f).feedbackText = e := by
        rw [hp1, hp2]; exact applyFieldError_feedback_eq k e f hname hfb
      have hnm : (applyFieldError p.1 p.2 f).nameAttr = some k := by
        rw [applyFieldError_nameAttr]; exact hname
      have hrest : applyFieldErrors rest (applyFieldError p.1 p.2 f)
          = applyFieldError p.1 p.2 f := by
        refine applyFieldErrors_not_mem rest _ ?_
        intro q hq hc
        rw [hnm] at hc
        apply hhead
        rw [hp1, Option.some.inj hc]
        exact List.mem_map_of_mem Prod.fst hq
      rw [hrest, hfe]
    · have hp1k : p.1 ≠ k := by
        intro hpk
        apply hhead
        rw [hpk]
        exact List.mem_map_of_mem Prod.fst hmem2
      have hne : f.nameAttr ≠ some p.1 := by
        rw [hname]
        intro hc
        exact hp1k (Option.some.inj hc).symm
      rw [applyFieldError_ne p.1 p.2 f hne]
      exact ih f k e hnd2 hmem2 hname hfb

/-- Claim C3 (code bug): with the progress bar present, rendering a
campaign progress object that lacks `current` and `goal` raises a
TypeError inside `updateDonationProgress`, and on such an envelope the
donation success handling aborts: the receipt fragment is not rendered
and the completion event is not fired, although `receipt_url` is
present. -/
theorem c3_bug_theorem :
    updateDonationProgress c3Dom c3Progress
        = Except.error "TypeError: progress.current is undefined"
      ∧ (donationCallback c3Dom [] c3Resp).thrown
          = some "TypeError: progress.current is undefined"
      ∧ (donationCallback c3Dom [] c3Resp).fragments = []
      ∧ (donationCallback c3Dom [] c3Resp).eventTriggered = none :=
  ⟨rfl, rfl, rfl, rfl⟩

/-- Claim C5: a donation submission whose amount control is missing,
empty, or parses to a number at most zero is rejected locally with
exactly the message of the source, the fields are left untouched, and no
request is issued, regardless of the rest of the form. -/
theorem c5_theorem (dom : DonationDom) (fields : List FormField)
    (resp : Envelope DonationData)
    (h : donationAmountValue fields = none ∨ donationAmountValue fields = some ""
      ∨ ∃ q : ℚ, parseFloatOpt (donationAmountValue fields) = some q ∧ q ≤ 0) :
    runDonation dom fields resp
      = RunResult.localAbort
          ⟨Severity.error, some "Please enter a valid donation amount"⟩ fields := by
  have hg : donationGuard fields = true := by
    rcases h with h | h | ⟨q, hq, hle⟩
    · simp [donationGuard, jsStrFalsy, h]
    · simp [donationGuard, jsStrFalsy, h]
    · simp [donationGuard, jsLeZero, hq, hle]
  simp [runDonation, donationPre, hg]

/-- Witness for C5 at amount value 0 next to an empty required field. -/
theorem c5_witness :
    runDonation ⟨false⟩ [exAmountZeroField, exEmptyReqField] exDonationResp
      = RunResult.localAbort
          ⟨Severity.error, some "Please enter a valid donation amount"⟩
          [exAmountZeroField, exEmptyReqField] :=
  c5_theorem ⟨false⟩ _ _ (Or.inr (Or.inr ⟨0, by decide, le_refl 0⟩))

/-- Claim C9: a non-empty non-numeric amount (the string abc) is NaN for
parseFloat, the guard does not fire, and the donation run issues the
request with the non-numeric amount in the payload. -/
theorem c9_theorem :
    parseFloatOpt (donationAmountValue c9Fields) = none
      ∧ donationGuard c9Fields = false
      ∧ runDonation c9Dom c9Fields exDonationResp
          = RunResult.sent [("amount", "abc")]
              (donationCallback c9Dom (validateForm c9Fields).2 exDonationResp) :=
  ⟨rfl, rfl, rfl⟩

/-- Claim C10: a present but falsy event id (the number 0 or the empty
string, like a missing one) aborts with the not-found toast and no
request. -/
theorem c10_theorem (v : JsVal) (resp : Envelope EventData) (h : jsFalsy v = true) :
    runLoadEventDetails v resp
      = DetailsResult.localAbort ⟨Severity.error, some "Event ID not found"⟩ := by
  simp [runLoadEventDetails, h]

/-- Witness for C10 at the number 0 and the empty string. -/
theorem c10_witness :
    runLoadEventDetails (JsVal.num 0) exDetailsSuccess
        = DetailsResult.localAbort ⟨Severity.error, some "Event ID not found"⟩
      ∧ runLoadEventDetails (JsVal.str "") exDetailsSuccess
        = DetailsResult.localAbort ⟨Severity.error, some "Event ID not found"⟩ :=
  ⟨c10_theorem (JsVal.num 0) exDetailsSuccess rfl,
   c10_theorem (JsVal.str "") exDetailsSuccess rfl⟩

/-- Claim C6 counterexample: a 400 response whose JSON body contains the
`message` member with the empty string is a body that parses as JSON
containing a `message` field, yet the generic 400 message is shown
instead of the embedded one. -/
theorem c6_counterexample :
    handleAjaxError 400 (JsonBody.parsed (some ""))
      = ⟨Severity.error, some "Bad request. Please check your input."⟩ := rfl

/-- Claim C6 as amended: the transport failure message is chosen by HTTP
status (400, 401, 403, 404, 500, otherwise generic), except that a JSON
error body whose `message` member is a non-empty string overrides it; in
particular a 404 with a non-JSON body yields the not-found text and a
400 with body message "Bad email" yields "Bad email". -/
theorem c6_amended_theorem :
    (∀ (status : Nat) (body : JsonBody), jsonMessageTruthy body = false →
        handleAjaxError status body = ⟨Severity.error, some (statusMessage status)⟩)
      ∧ (∀ (status : Nat) (m : String), m ≠ "" →
          handleAjaxError status (JsonBody.parsed (some m)) = ⟨Severity.error, some m⟩)
      ∧ handleAjaxError 404 JsonBody.notJson = ⟨Severity.error, some "Resource not found."⟩
      ∧ handleAjaxError 400 (JsonBody.parsed (some "Bad email"))
          = ⟨Severity.error, some "Bad email"⟩
      ∧ statusMessage 400 = "Bad request. Please check your input."
      ∧ statusMessage 401 = "Unauthorized. Please log in."
      ∧ statusMessage 403 = "Forbidden. You do not have permission."
      ∧ statusMessage 404 = "Resource not found."
      ∧ statusMessage 500 = "Server error. Please try again later."
      ∧ (∀ status : Nat, status ≠ 400 → status ≠ 401 → status ≠ 403 → status ≠ 404 →
          status ≠ 500 → statusMessage status = "An unexpected error occurred.") := by
  refine ⟨?_, ?_, rfl, rfl, rfl, rfl, rfl, rfl, rfl, ?_⟩
  · intro status body h
    cases body with
    | notJson => rfl
    | parsed mo =>
      cases mo with
      | none => rfl
      | some m =>
        simp only [jsonMessageTruthy, Bool.not_eq_false'] at h
        simp [handleAjaxError, h]
  · intro status m h
    simp [handleAjaxError, h]
  · intro status h1 h2 h3 h4 h5
    simp [statusMessage, h1, h2, h3, h4, h5]

/-- Witness for C6 at a plain 404, an embedded message, and a status
outside the switch. -/
theorem c6_amended_witness :
    handleAjaxError 404 JsonBody.notJson = ⟨Severity.error, some "Resource not found."⟩
      ∧ handleAjaxError 500 (JsonBody.parsed (some "Bad email"))
          = ⟨Severity.error, some "Bad email"⟩
      ∧ statusMessage 418 = "An unexpected error occurred." := by
  obtain ⟨h1, h2, -, -, -, -, -, -, -, h10⟩ := c6_amended_theorem
  exact ⟨h1 404 JsonBody.notJson rfl, h2 500 "Bad email" (by decide),
         h10 418 (by decide) (by decide) (by decide) (by decide) (by decide)⟩

/-- Claim C8: the event-details read path aborts with the not-found
toast when the id is falsy; renders and presents the modal on
`success=true` with data present; and toasts the server message or the
default when `success=false` or data is missing, rendering nothing. -/
theorem c8_theorem :
    (∀ (v : JsVal) (resp : Envelope EventData), jsFalsy v = true →
        runLoadEventDetails v resp
          = DetailsResult.localAbort ⟨Severity.error, some "Event ID not found"⟩)
      ∧ (∀ (v : JsVal) (resp : Envelope EventData) (d : EventData),
          jsFalsy v = false → resp.success = true → resp.data = some d →
          runLoadEventDetails v resp
            = DetailsResult.sent ("/api/events/" ++ jsValText v ++ "/")
                (DetailsOutcome.modal d.title (buildEventModalBody d)))
      ∧ (∀ (v : JsVal) (resp : Envelope EventData),
          jsFalsy v = false → (resp.success = false ∨ resp.data = none) →
          runLoadEventDetails v resp
            = DetailsResult.sent ("/api/events/" ++ jsValText v ++ "/")
                (DetailsOutcome.failToast
                  ⟨Severity.error,
                   some (jsOrStr resp.message "Failed to load event details")⟩)) := by
  refine ⟨?_, ?_, ?_⟩
  · intro v resp h
    simp [runLoadEventDetails, h]
  · intro v resp d hv hs hd
    simp [runLoadEventDetails, hv, detailsCallback, hs, hd]
  · intro v resp hv hor
    rcases hor with hs | hd
    · cases hdd : resp.data <;> simp [runLoadEventDetails, hv, detailsCallback, hs, hdd]
    · cases hss : resp.success <;> simp [runLoadEventDetails, hv, detailsCallback, hss, hd]

/-- Witness for C8: a present id with a successful response renders the
modal; with a failing response it toasts the server message; a missing
id aborts locally. -/
theorem c8_witness :
    runLoadEventDetails (JsVal.num 123) exDetailsSuccess
        = DetailsResult.sent ("/api/events/" ++ jsValText (JsVal.num 123) ++ "/")
            (DetailsOutcome.modal exEventData.title (buildEventModalBody exEventData))
      ∧ runLoadEventDetails (JsVal.num 123) exDetailsFailure
          = DetailsResult.sent ("/api/events/" ++ jsValText (JsVal.num 123) ++ "/")
              (DetailsOutcome.failToast
                ⟨Severity.error,
                 some (jsOrStr exDetailsFailure.message "Failed to load event details")⟩)
      ∧ runLoadEventDetails JsVal.undef exDetailsSuccess
          = DetailsResult.localAbort ⟨Severity.error, some "Event ID not found"⟩ := by
  obtain ⟨h1, h2, h3⟩ := c8_theorem
  exact ⟨h2 (JsVal.num 123) exDetailsSuccess exEventData rfl rfl rfl,
         h3 (JsVal.num 123) exDetailsFailure rfl (Or.inl rfl),
         h1 JsVal.undef exDetailsSuccess rfl⟩

/-- Claim C1 counterexample: a registration form holding a non-required
control still flagged from an earlier server error, submitted validly
and answered with a success envelope, comes out of the success branch
with that control still marked invalid. -/
theorem c1_counterexample :
    (match runRegistration [exEmailField, exFlaggedOptField] exRegSuccess with
     | RunResult.sent _ o => o.fieldsAfter.any (fun f => f.isInvalid)
     | RunResult.localAbort _ _ => false) = true := by rfl

/-- Claim C1 as amended: only the contact handler clears `is-invalid`
from every control in its success branch; the registration, volunteer
and donation handlers reset the form but pass the field states through
untouched, so only the required controls — cleared by the pre-submit
validation when it succeeds — are guaranteed unflagged. -/
theorem c1_amended_theorem :
    (∀ (fields : List FormField) (resp : Envelope Unit), resp.success = true →
        (contactCallback fields resp).formReset = true
        ∧ ∀ f ∈ (contactCallback fields resp).fieldsAfter, f.isInvalid = false)
      ∧ (∀ (fields : List FormField) (resp : Envelope RegData), resp.success = true →
          (registrationCallback fields resp).formReset = true
          ∧ (registrationCallback fields resp).fieldsAfter = fields)
      ∧ (∀ (fields : List FormField) (resp : Envelope VolData), resp.success = true →
          (volunteerCallback fields resp).formReset = true
          ∧ (volunteerCallback fields resp).fieldsAfter = fields)
      ∧ (∀ (dom : DonationDom) (fields : List FormField) (resp : Envelope DonationData),
          resp.success = true →
          (donationCallback dom fields resp).formReset = true
          ∧ (donationCallback dom fields resp).fieldsAfter = fields)
      ∧ (∀ fields : List FormField, (validateForm fields).1.isValid = true →
          ∀ f ∈ (validateForm fields).2, f.required = true → f.isInvalid = false) := by
  refine ⟨?_, ?_, ?_, ?_, ?_⟩
  · intro fields resp h
    refine ⟨by simp [contactCallback, h], ?_⟩
    intro f hf
    simp [contactCallback, h, List.mem_map] at hf
    obtain ⟨g, -, rfl⟩ := hf
    rfl
  · intro fields resp h
    exact ⟨by simp [registrationCallback, h], by simp [registrationCallback, h]⟩
  · intro fields resp h
    exact ⟨by simp [volunteerCallback, h], by simp [volunteerCallback, h]⟩
  · intro dom fields resp h
    constructor <;> (simp only [donationCallback, h, if_true]; split <;> rfl)
  · intro fields h
    exact validateFields_valid_clear fields (validateForm_valid_nil h)

/-- Witness for C1 as amended: the contact success branch clears a
flagged control; the registration success branch passes fields through. -/
theorem c1_amended_witness :
    ((contactCallback [exFlaggedOptField] exSuccessUnit).formReset = true
      ∧ ∀ f ∈ (contactCallback [exFlaggedOptField] exSuccessUnit).fieldsAfter,
          f.isInvalid = false)
      ∧ ((registrationCallback [exEmailField] exRegSuccess).formReset = true
        ∧ (registrationCallback [exEmailField] exRegSuccess).fieldsAfter = [exEmailField]) :=
  ⟨c1_amended_theorem.1 [exFlaggedOptField] exSuccessUnit rfl,
   c1_amended_theorem.2.1 [exEmailField] exRegSuccess rfl⟩

/-- Claim C2 counterexample: a successful registration envelope without
a `message` member reaches the toast with an undefined message — there
is no operation-specific default. -/
theorem c2_counterexample :
    (registrationCallback [] exRegSuccessNoMsg).toast.message = none := rfl

/-- Claim C2 as amended: only the contact handler substitutes the
default success text when `message` is absent or empty; the
registration, volunteer and donation handlers pass the envelope message
through unchanged, undefined included. -/
theorem c2_amended_theorem :
    (∀ (fields : List FormField) (resp : Envelope Unit), resp.success = true →
        (contactCallback fields resp).toast
          = ⟨Severity.success, some (jsOrStr resp.message "Form submitted successfully")⟩)
      ∧ (∀ (fields : List FormField) (resp : Envelope RegData), resp.success = true →
          (registrationCallback fields resp).toast = ⟨Severity.success, resp.message⟩)
      ∧ (∀ (fields : List FormField) (resp : Envelope VolData), resp.success = true →
          (volunteerCallback fields resp).toast = ⟨Severity.success, resp.message⟩)
      ∧ (∀ (dom : DonationDom) (fields : List FormField) (resp : Envelope DonationData),
          resp.success = true →
          (donationCallback dom fields resp).toast = ⟨Severity.success, resp.message⟩) := by
  refine ⟨?_, ?_, ?_, ?_⟩
  · intro fields resp h
    simp [contactCallback, h]
  · intro fields resp h
    simp [registrationCallback, h]
  · intro fields resp h
    simp [volunteerCallback, h]
  · intro dom fields resp h
    simp only [donationCallback, h, if_true]
    split <;> rfl

/-- Witness for C2 as amended: the contact toast falls back to the
default on a missing message, the registration toast stays undefined. -/
theorem c2_amended_witness :
    (contactCallback [] { success := true, message := none, data := none, errors := none }).toast
        = ⟨Severity.success, some (jsOrStr none "Form submitted successfully")⟩
      ∧ (registrationCallback [] exRegSuccessNoMsg).toast
          = ⟨Severity.success, exRegSuccessNoMsg.message⟩ :=
  ⟨c2_amended_theorem.1 [] { success := true, message := none, data := none, errors := none } rfl,
   c2_amended_theorem.2.1 [] exRegSuccessNoMsg rfl⟩

/-- Claim C4: on `success=false` every form handler runs exactly the
shared error branch — toast of `message` or the default failure text, no
reset, no fragment — and that branch flags exactly the controls whose
name is a key of `errors`, setting the feedback slot text when the slot
exists and leaving every other control untouched. -/
theorem c4_theorem :
    (∀ (fields : List FormField) (resp : Envelope Unit), resp.success = false →
        contactCallback fields resp = errorBranchOutcome fields resp.message resp.errors)
      ∧ (∀ (fields : List FormField) (resp : Envelope RegData), resp.success = false →
          registrationCallback fields resp = errorBranchOutcome fields resp.message resp.errors)
      ∧ (∀ (fields : List FormField) (resp : Envelope VolData), resp.success = false →
          volunteerCallback fields resp = errorBranchOutcome fields resp.message resp.errors)
      ∧ (∀ (dom : DonationDom) (fields : List FormField) (resp : Envelope DonationData),
          resp.success = false →
          donationCallback dom fields resp = errorBranchOutcome fields resp.message resp.errors)
      ∧ (∀ (fields : List FormField) (msg : Option String) (errs : List (String × String)),
          (errorBranchOutcome fields msg (some errs)).toast
              = ⟨Severity.error, some (jsOrStr msg "Form submission failed")⟩
            ∧ (errorBranchOutcome fields msg (some errs)).formReset = false
            ∧ (errorBranchOutcome fields msg (some errs)).fragments = []
            ∧ (errorBranchOutcome fields msg (some errs)).fieldsAfter
                = fields.map (applyFieldErrors errs))
      ∧ (∀ (errs : List (String × String)) (f : FormField) (k e : String),
          (k, e) ∈ errs → f.nameAttr = some k → (applyFieldErrors errs f).isInvalid = true)
      ∧ (∀ (errs : List (String × String)) (f : FormField),
          (∀ p ∈ errs, f.nameAttr ≠ some p.1) → applyFieldErrors errs f = f)
      ∧ (∀ (errs : List (String × String)) (f : FormField) (k e : String),
          (errs.map Prod.fst).Nodup → (k, e) ∈ errs → f.nameAttr = some k →
          f.hasFeedback = true → (applyFieldErrors errs f).feedbackText = e) := by
  refine ⟨?_, ?_, ?_, ?_, ?_,
    applyFieldErrors_mem_invalid, applyFieldErrors_not_mem, applyFieldErrors_feedback⟩
  · intro fields resp h
    simp [contactCallback, h]
  · intro fields resp h
    simp [registrationCallback, h]
  · intro fields resp h
    simp [volunteerCallback, h]
  · intro dom fields resp h
    simp [donationCallback, h]
  · intro fields msg errs
    exact ⟨rfl, rfl, rfl, rfl⟩

/-- Witness for C4 at the spec example: a failing envelope whose errors
map holds only the email key flags exactly the email control and writes
its feedback slot. -/
theorem c4_witness :
    contactCallback [exEmailField] exFailEnvelope
        = errorBranchOutcome [exEmailField] none (some [("email", "Invalid")])
      ∧ (applyFieldErrors [("email", "Invalid")] exEmailField).isInvalid = true
      ∧ (applyFieldErrors [("email", "Invalid")] exEmailField).feedbackText = "Invalid"
      ∧ (applyFieldErrors [("email", "Invalid")] exFlaggedOptField) = exFlaggedOptField := by
  obtain ⟨h1, -, -, -, -, h6, h7, h8⟩ := c4_theorem
  refine ⟨h1 [exEmailField] exFailEnvelope rfl, ?_, ?_, ?_⟩
  · exact h6 [("email", "Invalid")] exEmailField "email" "Invalid"
      (List.mem_singleton.mpr rfl) rfl
  · exact h8 [("email", "Invalid")] exEmailField "email" "Invalid"
      (by decide) (List.mem_singleton.mpr rfl) rfl rfl
  · exact h7 [("email", "Invalid")] exFlaggedOptField (by decide)

/-- Claim C7: an empty required field makes validation invalid with the
field-naming violation; the result is valid exactly when the violation
list is empty; and a failed validation makes every handler stop with the
joined violations and no request (for the donation handler, once its
amount guard has passed). -/
theorem c7_theorem :
    (∀ (fields : List FormField) (f : FormField), f ∈ fields → f.required = true →
        jsTrim f.value = "" →
        (validateForm fields).1.isValid = false
        ∧ (fieldLabel f ++ " is required") ∈ (validateForm fields).1.errors)
      ∧ (∀ fields : List FormField,
          (validateForm fields).1.isValid = true ↔ (validateForm fields).1.errors = [])
      ∧ (∀ (fields : List FormField) (resp : Envelope Unit),
          (validateForm fields).1.isValid = false →
          runContact fields resp
            = RunResult.localAbort
                ⟨Severity.error,
                 some (String.intercalate "<br>" (validateForm fields).1.errors)⟩
                (validateForm fields).2)
      ∧ (∀ (fields : List FormField) (resp : Envelope RegData),
          (validateForm fields).1.isValid = false →
          runRegistration fields resp
            = RunResult.localAbort
                ⟨Severity.error,
                 some (String.intercalate "<br>" (validateForm fields).1.errors)⟩
                (validateForm fields).2)
      ∧ (∀ (fields : List FormField) (resp : Envelope VolData),
          (validateForm fields).1.isValid = false →
          runVolunteer fields resp
            = RunResult.localAbort
                ⟨Severity.error,
                 some (String.intercalate "<br>" (validateForm fields).1.errors)⟩
                (validateForm fields).2)
      ∧ (∀ (dom : DonationDom) (fields : List FormField) (resp : Envelope DonationData),
          donationGuard fields = false →
          (validateForm fields).1.isValid = false →
          runDonation dom fields resp
            = RunResult.localAbort
                ⟨Severity.error,
                 some (String.intercalate "<br>" (validateForm fields).1.errors)⟩
                (validateForm fields).2) := by
  refine ⟨?_, ?_, ?_, ?_, ?_, ?_⟩
  · intro fields f hf hreq hv
    have hmem := validateFields_mem_required fields f hf hreq hv
    constructor
    · cases hiv : (validateForm fields).1.isValid with
      | false => rfl
      | true =>
        exfalso
        rw [validateForm_valid_nil hiv] at hmem
        cases hmem
    · exact hmem
  · intro fields
    simp [validateForm, List.length_eq_zero]
  · intro fields resp h
    simp [runContact, genericPre_invalid h]
  · intro fields resp h
    simp [runRegistration, genericPre_invalid h]
  · intro fields resp h
    simp [runVolunteer, genericPre_invalid h]
  · intro dom fields resp hg h
    simp [runDonation, donationPre, hg, genericPre_invalid h]

/-- Witness for C7: a single empty required field yields the named
violation and an aborted contact run; a donation form with a valid
amount but an empty required field aborts on the joined violations. -/
theorem c7_witness :
    ((validateForm [exEmptyReqField]).1.isValid = false
      ∧ (fieldLabel exEmptyReqField ++ " is required")
          ∈ (validateForm [exEmptyReqField]).1.errors)
      ∧ runContact [exEmptyReqField] exSuccessUnit
          = RunResult.localAbort
              ⟨Severity.error,
               some (String.intercalate "<br>" (validateForm [exEmptyReqField]).1.errors)⟩
              (validateForm [exEmptyReqField]).2
      ∧ runDonation ⟨false⟩ [exAmountOkField, exEmptyReqField] exDonationResp
          = RunResult.localAbort
              ⟨Severity.error,
               some (String.intercalate "<br>"
                 (validateForm [exAmountOkField, exEmptyReqField]).1.errors)⟩
              (validateForm [exAmountOkField, exEmptyReqField]).2 := by
  obtain ⟨h1, -, h3, -, -, h6⟩ := c7_theorem
  exact ⟨h1 [exEmptyReqField] exEmptyReqField (List.mem_singleton.mpr rfl) rfl rfl,
         h3 [exEmptyReqField] exSuccessUnit rfl,
         h6 ⟨false⟩ [exAmountOkField, exEmptyReqField] exDonationResp rfl rfl⟩
